import Mathlib

/-
Verification of the host lifecycle orchestration subsystem of the
`nathanleclaire/docker` repository: the state enumeration
(hosts/state/state.go), the directory-backed host store (hosts/store.go),
the layered configuration resolver (config package), and the canonical
EC2 driver (hosts/drivers/.../ec2.go): its status mapping, its
security-group creation retry loop, and its provisioning readiness poll.

Go integers are embedded as Nat (the claims under scrutiny only concern
non-negative values), Go strings as String, fallible calls as
Except/Option, and the outcomes of external collaborators (the AWS API,
the filesystem, the SSH dial) as explicit environment parameters.
-/

/- ------------------------------------------------------------------ -/
/- State enumeration: src/hosts/state/state.go                        -/
/- ------------------------------------------------------------------ -/

namespace state

/-- Embeds the `iota` constant block of hosts/state/state.go
(`None, Error, Running, Paused, Saved, Stopped, Starting`). -/
def None : Nat := 0

/-- Second `iota` constant. -/
def Error : Nat := 1

/-- Third `iota` constant. -/
def Running : Nat := 2

/-- Fourth `iota` constant. -/
def Paused : Nat := 3

/-- Fifth `iota` constant. -/
def Saved : Nat := 4

/-- Sixth `iota` constant. -/
def Stopped : Nat := 5

/-- Seventh `iota` constant. -/
def Starting : Nat := 6

end state

/-- Embeds the `states` name table of hosts/state/state.go. -/
def states : List String :=
  ["", "Error", "Running", "Paused", "Saved", "Stopped", "Starting"]

/-- Embeds Go's `func (s State) String() string`: it returns
`states[s]` when `int(s) < len(states)-1` and `""` otherwise.  The
receiver is embedded as a `Nat` (the claim is restricted to
non-negative values; a negative receiver would index out of bounds in
the Go code). -/
def stateString (s : Nat) : String :=
  if h : s < states.length - 1 then
    states.get ⟨s, Nat.lt_of_lt_of_le h (Nat.sub_le _ _)⟩
  else ""

theorem stateString_of_ge (s : Nat) (h : 6 ≤ s) : stateString s = "" := by
  have hlen : ¬ s < states.length - 1 := by
    simp only [states, List.length]
    omega
  simp [stateString, hlen]

/-- C10: `State.String` is total on non-negative receivers (it is a total
function of the embedded `Nat`), returns a non-empty canonical name
exactly for `Error`, `Running`, `Paused`, `Saved`, `Stopped`, and returns
`""` for `None`, for `Starting` (the `len(states)-1` guard excludes the
last table entry), and for every value outside the enumeration. -/
theorem stateString_canonical :
    ∀ s : Nat,
      (stateString s ≠ "" ↔ (1 ≤ s ∧ s ≤ 5)) ∧
      stateString state.None = "" ∧
      stateString state.Error = "Error" ∧
      stateString state.Running = "Running" ∧
      stateString state.Paused = "Paused" ∧
      stateString state.Saved = "Saved" ∧
      stateString state.Stopped = "Stopped" ∧
      stateString state.Starting = "" ∧
      (7 ≤ s → stateString s = "") := by
  intro s
  refine ⟨?_, by decide, by decide, by decide, by decide, by decide,
    by decide, by decide, fun h7 => stateString_of_ge s (by omega)⟩
  by_cases h : s < 6
  · interval_cases s <;> simp [stateString, states] <;> decide
  · rw [stateString_of_ge s (by omega)]
    simp
    omega

/-- Witness instantiating `stateString_canonical` at the out-of-range
value 7 and at the in-range value 2. -/
theorem stateString_canonical_out_of_range :
    stateString 7 = "" ∧ stateString 2 ≠ "" :=
  ⟨(stateString_canonical 7).2.2.2.2.2.2.2.2 (by omega),
   ((stateString_canonical 2).1).mpr (by omega)⟩

/- ------------------------------------------------------------------ -/
/- EC2 driver: src/hosts/drivers/aws/ec2/ec2.go                       -/
/- ------------------------------------------------------------------ -/

/-- Embeds `aws.Auth` (AccessKey, SecretKey). -/
structure AwsAuth where
  AccessKey : String
  SecretKey : String
deriving DecidableEq

/-- Embeds the EC2 `Driver` struct of src/hosts/drivers/aws/ec2/ec2.go. -/
structure Ec2Driver where
  Auth : AwsAuth
  Endpoint : String
  ImageId : String
  InstanceId : String
  InstanceName : String
  InstanceType : String
  KeyName : String
  PublicDnsName : String
  IPAddress : String
  SecurityGroup : String
  Region : String
  Username : String
  storePath : String
deriving DecidableEq

/-- Embeds the `association` element of the XML `DescribeInstancesResponse`
(fields read by `GetState`: `publicIp`, `publicDnsName`). -/
structure Ec2Association where
  PublicIp : String
  PublicDnsName : String
deriving DecidableEq

/-- Embeds one `networkInterfaceSet>item` element. -/
structure Ec2NetworkInterface where
  Association : Ec2Association
deriving DecidableEq

/-- Embeds the `instanceState` element (`code`, `name`). -/
structure Ec2InstanceState where
  Code : Nat
  Name : String
deriving DecidableEq

/-- Embeds one `instancesSet>item` element (fields read by `GetState`). -/
structure Ec2InstanceEntry where
  InstanceId : String
  InstanceState : Ec2InstanceState
  NetworkInterfaceSet : List Ec2NetworkInterface
deriving DecidableEq

/-- Embeds one `reservationSet>item` element. -/
structure Ec2Reservation where
  InstancesSet : List Ec2InstanceEntry
deriving DecidableEq

/-- Embeds the decoded `DescribeInstancesResponse`. -/
structure DescribeInstancesResponse where
  ReservationSet : List Ec2Reservation
deriving DecidableEq

/-- Embeds `strings.TrimSpace`: strips leading and trailing whitespace
(written over the character list so that the kernel can evaluate it). -/
def goTrimSpace (s : String) : String :=
  String.mk (((s.data.dropWhile Char.isWhitespace).reverse.dropWhile
    Char.isWhitespace).reverse)

/-- Result of a Go computation that may panic (an out-of-bounds slice
index in `GetState`'s response destructuring). -/
inductive GoResult (α : Type) where
  | ok : α → GoResult α
  | panics : GoResult α
deriving DecidableEq

/-- Embeds `Driver.GetState` of src/hosts/drivers/aws/ec2/ec2.go.  The
combined outcome of `performStandardAction`, the body read and the XML
unmarshal is passed as `apiResult` (`Except.error` collapses the three
error returns, each of which yields `state.Error` with a non-nil Go
error and leaves the receiver untouched).  On a decoded response the Go
code indexes `ReservationSet[0]`, `InstancesSet[0]` and
`NetworkInterfaceSet[0]` (a panic if empty), assigns `d.IPAddress` and
`d.PublicDnsName` from the association, trims the status name and maps
it through the `switch`; the fall-through returns `state.Error, nil`.
The returned triple is (receiver after the call, state, Go error). -/
def ec2GetState (d : Ec2Driver) (apiResult : Except String DescribeInstancesResponse) :
    GoResult (Ec2Driver × Nat × Option String) :=
  match apiResult with
  | .error e => .ok (d, state.Error, some e)
  | .ok resp =>
    match resp.ReservationSet.head? with
    | none => .panics
    | some reservationSet =>
      match reservationSet.InstancesSet.head? with
      | none => .panics
      | some inst =>
        match inst.NetworkInterfaceSet.head? with
        | none => .panics
        | some ni =>
          let d' := { d with IPAddress := ni.Association.PublicIp,
                             PublicDnsName := ni.Association.PublicDnsName }
          let shortState := goTrimSpace inst.InstanceState.Name
          if shortState = "pending" then .ok (d', state.Starting, none)
          else if shortState = "running" then .ok (d', state.Running, none)
          else if shortState = "stopped" then .ok (d', state.Stopped, none)
          else .ok (d', state.Error, none)

/-- The status table realized by `ec2GetState`'s `switch`, factored out
from the same source lines to state the mapping theorem. -/
def ec2StateTable (status : String) : Nat :=
  let shortState := goTrimSpace status
  if shortState = "pending" then state.Starting
  else if shortState = "running" then state.Running
  else if shortState = "stopped" then state.Stopped
  else state.Error

/-- Embeds `Driver.GetURL` of src/hosts/drivers/aws/ec2/ec2.go; the
returned pair is (receiver after the call, result).  The body reads
`d.PublicDnsName` and assigns no field. -/
def ec2GetURL (d : Ec2Driver) : Ec2Driver × Except String String :=
  if d.PublicDnsName = "" then (d, .error "Public URL does not exist yet")
  else (d, .ok ("tcp://" ++ d.PublicDnsName ++ ":2375"))

/-- Embeds `Driver.GetIP` of src/hosts/drivers/aws/ec2/ec2.go; the
returned pair is (receiver after the call, result).  The body reads
`d.IPAddress` and assigns no field. -/
def ec2GetIP (d : Ec2Driver) : Ec2Driver × Except String String :=
  if d.IPAddress = "" then (d, .error "IP Address does not exist yet")
  else (d, .ok d.IPAddress)

/-- A concrete driver value with every field empty, used to evaluate the
driver operations at concrete inputs. -/
def emptyEc2Driver : Ec2Driver :=
  { Auth := { AccessKey := "", SecretKey := "" }, Endpoint := "", ImageId := "",
    InstanceId := "", InstanceName := "", InstanceType := "", KeyName := "",
    PublicDnsName := "", IPAddress := "", SecurityGroup := "", Region := "",
    Username := "", storePath := "" }

/-- A concrete network interface carrying the address 1.2.3.4. -/
def stoppingInterface : Ec2NetworkInterface :=
  { Association :=
      { PublicIp := "1.2.3.4", PublicDnsName := "ec2-1-2-3-4.example.com" } }

/-- A concrete instance entry whose status is `stopping`. -/
def stoppingInstance : Ec2InstanceEntry :=
  { InstanceId := "i-0abc",
    InstanceState := { Code := 64, Name := "stopping" },
    NetworkInterfaceSet := [stoppingInterface] }

/-- A concrete reservation holding `stoppingInstance`. -/
def stoppingReservation : Ec2Reservation :=
  { InstancesSet := [stoppingInstance] }

/-- A concrete well-formed single-instance `DescribeInstances` response
whose instance status is `stopping` and whose network association carries
the address 1.2.3.4. -/
def stoppingResponse : DescribeInstancesResponse :=
  { ReservationSet := [stoppingReservation] }

/-- C2 counterexample: on the remote status string `"stopping"` the cited
`GetState` returns `state.Error` (not `state.Stopped`, as the claimed
mapping table demands) and its returned Go error is nil (not the non-nil
diagnostic the claim demands for an unrecognized string). -/
theorem ec2GetState_stopping_counterexample :
    ec2GetState emptyEc2Driver (.ok stoppingResponse) =
      .ok ({ emptyEc2Driver with
              IPAddress := "1.2.3.4",
              PublicDnsName := "ec2-1-2-3-4.example.com" },
           state.Error, none) ∧
    state.Error ≠ state.Stopped := by
  constructor
  · decide
  · decide

/-- C2 (amended): on a well-formed single-instance response `GetState`
does not panic: it assigns the association's address fields into the
receiver and maps the trimmed status through the fixed table
`pending → Starting`, `running → Running`, `stopped → Stopped`; any other
status string — `"stopping"` included — yields `state.Error` with a nil
Go error (no diagnostic); when the remote call itself fails, it returns
`state.Error` with the non-nil call error and an untouched receiver. -/
theorem ec2GetState_mapping
    (d : Ec2Driver) (resp : DescribeInstancesResponse)
    (rs : Ec2Reservation) (inst : Ec2InstanceEntry) (ni : Ec2NetworkInterface)
    (h1 : resp.ReservationSet.head? = some rs)
    (h2 : rs.InstancesSet.head? = some inst)
    (h3 : inst.NetworkInterfaceSet.head? = some ni) :
    ec2GetState d (.ok resp) =
      .ok ({ d with
              IPAddress := ni.Association.PublicIp,
              PublicDnsName := ni.Association.PublicDnsName },
           ec2StateTable inst.InstanceState.Name, none) ∧
    ec2StateTable "stopping" = state.Error ∧
    (∀ s : String, goTrimSpace s ≠ "pending" → goTrimSpace s ≠ "running" →
      goTrimSpace s ≠ "stopped" → ec2StateTable s = state.Error) ∧
    (∀ e : String, ec2GetState d (.error e) = .ok (d, state.Error, some e)) := by
  refine ⟨?_, by decide, ?_, fun e => rfl⟩
  · simp only [ec2GetState, h1, h2, h3, ec2StateTable]
    split_ifs <;> rfl
  · intro s hp hr hs
    simp only [ec2StateTable]
    rw [if_neg hp, if_neg hr, if_neg hs]

/-- Witness instantiating `ec2GetState_mapping` at the concrete
`stopping` response. -/
theorem ec2GetState_mapping_witness :
    ec2GetState emptyEc2Driver (.ok stoppingResponse) =
      .ok ({ emptyEc2Driver with
              IPAddress := "1.2.3.4",
              PublicDnsName := "ec2-1-2-3-4.example.com" },
           ec2StateTable "stopping", none) ∧
    ec2StateTable "stopping" = state.Error :=
  ⟨(ec2GetState_mapping emptyEc2Driver stoppingResponse stoppingReservation
      stoppingInstance stoppingInterface rfl rfl rfl).1,
   (ec2GetState_mapping emptyEc2Driver stoppingResponse stoppingReservation
      stoppingInstance stoppingInterface rfl rfl rfl).2.1⟩

/-- C9 counterexample: `GetState` is not state-preserving — on the
concrete `stopping` response it hands back a receiver whose `IPAddress`
and `PublicDnsName` fields differ from the input driver's. -/
theorem ec2ReadOnly_counterexample :
    ec2GetState emptyEc2Driver (.ok stoppingResponse) =
      .ok ({ emptyEc2Driver with
              IPAddress := "1.2.3.4",
              PublicDnsName := "ec2-1-2-3-4.example.com" },
           state.Error, none) ∧
    ({ emptyEc2Driver with
        IPAddress := "1.2.3.4",
        PublicDnsName := "ec2-1-2-3-4.example.com" } : Ec2Driver) ≠
      emptyEc2Driver := by
  constructor
  · decide
  · decide

/-- C9 (amended): `GetURL` and `GetIP` leave the driver state fully
unchanged; `GetState` performs no remote mutation but does update the
local cache fields `IPAddress` and `PublicDnsName` from the response,
leaving every other field of the driver unchanged (and leaves the whole
driver unchanged when the remote call fails). -/
theorem ec2ReadOnly_frame (d : Ec2Driver) :
    (ec2GetURL d).1 = d ∧
    (ec2GetIP d).1 = d ∧
    (∀ e, ec2GetState d (.error e) = .ok (d, state.Error, some e)) ∧
    (∀ resp d' st err, ec2GetState d (.ok resp) = .ok (d', st, err) →
      d'.Auth = d.Auth ∧ d'.Endpoint = d.Endpoint ∧ d'.ImageId = d.ImageId ∧
      d'.InstanceId = d.InstanceId ∧ d'.InstanceName = d.InstanceName ∧
      d'.InstanceType = d.InstanceType ∧ d'.KeyName = d.KeyName ∧
      d'.SecurityGroup = d.SecurityGroup ∧ d'.Region = d.Region ∧
      d'.Username = d.Username ∧ d'.storePath = d.storePath) := by
  refine ⟨?_, ?_, fun e => rfl, ?_⟩
  · unfold ec2GetURL
    split <;> rfl
  · unfold ec2GetIP
    split <;> rfl
  · intro resp d' st err h
    simp only [ec2GetState] at h
    cases hr1 : resp.ReservationSet.head? with
    | none =>
      simp only [hr1] at h
      exact GoResult.noConfusion h
    | some rs =>
      simp only [hr1] at h
      cases hr2 : rs.InstancesSet.head? with
      | none =>
        simp only [hr2] at h
        exact GoResult.noConfusion h
      | some inst =>
        simp only [hr2] at h
        cases hr3 : inst.NetworkInterfaceSet.head? with
        | none =>
          simp only [hr3] at h
          exact GoResult.noConfusion h
        | some ni =>
          simp only [hr3] at h
          split_ifs at h <;>
            (simp only [GoResult.ok.injEq, Prod.mk.injEq] at h
             obtain ⟨hd, -, -⟩ := h
             subst hd
             simp)

/-- Witness instantiating `ec2ReadOnly_frame` at the empty driver with
the concrete `stopping` response. -/
theorem ec2ReadOnly_frame_witness :
    (ec2GetURL emptyEc2Driver).1 = emptyEc2Driver ∧
    ({ emptyEc2Driver with
        IPAddress := "1.2.3.4",
        PublicDnsName := "ec2-1-2-3-4.example.com" } : Ec2Driver).KeyName =
      emptyEc2Driver.KeyName :=
  ⟨(ec2ReadOnly_frame emptyEc2Driver).1,
   ((ec2ReadOnly_frame emptyEc2Driver).2.2.2 stoppingResponse
      { emptyEc2Driver with
          IPAddress := "1.2.3.4",
          PublicDnsName := "ec2-1-2-3-4.example.com" }
      state.Error none (by decide)).2.2.2.2.2.2.1⟩

/- ------------------------------------------------------------------ -/
/- Canonical EC2 driver provisioning: provision() readiness poll      -/
/- ------------------------------------------------------------------ -/

/-- Embeds `MAX_REQUEST_ATTEMPTS` of the canonical EC2 driver. -/
def MAX_REQUEST_ATTEMPTS : Nat := 5

/-- Embeds `MAX_SSH_CONNECTION_ATTEMPTS` of the canonical EC2 driver. -/
def MAX_SSH_CONNECTION_ATTEMPTS : Nat := 1000

/-- Outcome of the `provision()` readiness-poll loop: the loop `break`s
into the bootstrap sequence, returns the `GetState` error, returns the
SSH-max-attempts error, or (with insufficient fuel) is still iterating —
the Go loop is an unbounded `for`, so the embedding is fueled and
`stillPolling` identifies non-termination within the given fuel. -/
inductive PollOutcome where
  | sshReady
  | stateError
  | timeoutError
  | stillPolling
deriving DecidableEq

/-- Scripted collaborator outcomes for the readiness poll, indexed by
the attempt counter: `getStateIp k` is `none` when the `GetState` call
of attempt `k` fails, otherwise `some ip` where `ip` is the value of
`d.IPAddress` right after that call; `dialOk k` is the outcome of the
`net.DialTimeout` probe of attempt `k`. -/
structure PollEnv where
  getStateIp : Nat → Option String
  dialOk : Nat → Bool

/-- Embeds the polling loop of `provision()` in the canonical EC2
driver: each iteration sleeps, increments `attempts`, calls `GetState`
(an error aborts the loop with that error), skips the probe while the
instance has no address yet, then dials port 22; a failed dial retries
while `attempts < MAX_SSH_CONNECTION_ATTEMPTS` and otherwise returns the
SSH-max-attempts-exceeded error; a successful dial breaks out.  `fuel`
bounds the number of iterations the embedding unfolds. -/
def provisionPoll (env : PollEnv) : Nat → Nat → PollOutcome
  | 0, _ => .stillPolling
  | fuel + 1, attempts =>
    let a := attempts + 1
    match env.getStateIp a with
    | none => .stateError
    | some ip =>
      if ip = "" then provisionPoll env fuel a
      else if env.dialOk a then .sshReady
      else if a < MAX_SSH_CONNECTION_ATTEMPTS then provisionPoll env fuel a
      else .timeoutError

theorem provisionPoll_all_fail (env : PollEnv)
    (hstate : ∀ k, ∃ ip, env.getStateIp k = some ip ∧ ip ≠ "")
    (hdial : ∀ k, env.dialOk k = false) :
    ∀ fuel attempts, provisionPoll env fuel attempts =
      if fuel ≠ 0 ∧ MAX_SSH_CONNECTION_ATTEMPTS ≤ attempts + fuel then
        .timeoutError
      else .stillPolling := by
  intro fuel
  induction fuel with
  | zero => intro attempts; simp [provisionPoll]
  | succ fuel ih =>
    intro attempts
    obtain ⟨ip, hip, hne⟩ := hstate (attempts + 1)
    simp only [provisionPoll, hip, hne, if_neg, hdial (attempts + 1),
      Bool.false_eq_true, if_false]
    by_cases hlt : attempts + 1 < MAX_SSH_CONNECTION_ATTEMPTS
    · rw [if_pos hlt, ih (attempts + 1)]
      by_cases hf : fuel = 0
      · subst hf
        simp only [ne_eq, not_true_eq_false, false_and, if_false]
        rw [if_neg]
        omega
      · have : (fuel ≠ 0 ∧ MAX_SSH_CONNECTION_ATTEMPTS ≤ attempts + 1 + fuel) ↔
            (fuel + 1 ≠ 0 ∧ MAX_SSH_CONNECTION_ATTEMPTS ≤ attempts + (fuel + 1)) := by
          constructor
          · rintro ⟨-, hb⟩
            exact ⟨by omega, by omega⟩
          · rintro ⟨-, hb⟩
            exact ⟨hf, by omega⟩
        rw [if_congr this rfl rfl]
    · rw [if_neg hlt]
      rw [if_pos]
      exact ⟨by omega, by omega⟩

/-- C1: when provisioning is enabled, `GetState` keeps succeeding with a
non-empty address, and the SSH readiness probe never succeeds, the
`provision()` polling loop terminates after exactly the documented
ceiling `MAX_SSH_CONNECTION_ATTEMPTS = 1000` of probe attempts and
returns the explicit SSH-max-attempts-exceeded (provisioning-timeout)
error — with any smaller iteration budget the loop is still polling, so
the exit happens at attempt 1000 and never as a silent success. -/
theorem provision_timeout (env : PollEnv)
    (hstate : ∀ k, ∃ ip, env.getStateIp k = some ip ∧ ip ≠ "")
    (hdial : ∀ k, env.dialOk k = false) :
    provisionPoll env MAX_SSH_CONNECTION_ATTEMPTS 0 = .timeoutError ∧
    (∀ fuel, fuel < MAX_SSH_CONNECTION_ATTEMPTS →
      provisionPoll env fuel 0 = .stillPolling) := by
  constructor
  · rw [provisionPoll_all_fail env hstate hdial]
    rw [if_pos]
    refine ⟨?_, by omega⟩
    simp [MAX_SSH_CONNECTION_ATTEMPTS]
  · intro fuel hlt
    rw [provisionPoll_all_fail env hstate hdial]
    rw [if_neg]
    rintro ⟨-, hb⟩
    omega

/-- A scripted collaborator whose instance address is always available
and whose readiness probe always fails. -/
def neverReadyEnv : PollEnv :=
  { getStateIp := fun _ => some "1.2.3.4", dialOk := fun _ => false }

/-- Witness instantiating `provision_timeout` at the scripted
never-ready collaborator. -/
theorem provision_timeout_witness :
    provisionPoll neverReadyEnv MAX_SSH_CONNECTION_ATTEMPTS 0 = .timeoutError ∧
    provisionPoll neverReadyEnv 999 0 = .stillPolling :=
  ⟨(provision_timeout neverReadyEnv
      (fun _ => ⟨"1.2.3.4", rfl, by decide⟩) (fun _ => rfl)).1,
   (provision_timeout neverReadyEnv
      (fun _ => ⟨"1.2.3.4", rfl, by decide⟩) (fun _ => rfl)).2 999 (by decide)⟩

/- ------------------------------------------------------------------ -/
/- Canonical EC2 driver: createSecurityGroup ingress retry loop       -/
/- ------------------------------------------------------------------ -/

/-- Outcome of one `makeAwsApiCall`: a 200 response, a 400 response
carrying the decoded error code of `Errors[0]`, or any other failure
(client error or non-200, non-400 status). -/
inductive AwsApiOutcome where
  | okResp
  | badRequest (code : String)
  | otherFailure
deriving DecidableEq

/-- Modelled from the spec: the structured AWS error code that means the
security group already exists (`ErrorDuplicateGroup` is referenced by the
canonical driver but its defining file is not under src/; §4.5 step 2
describes it as the code indicating "already exists").  Its exact text
does not affect any claim settled here. -/
def ErrorDuplicateGroup : String := "InvalidGroup.Duplicate"

/-- Scripted collaborator outcomes for `createSecurityGroup`:
`createCall` is the outcome of the `CreateSecurityGroup` API call,
`decodeOk` the outcome of decoding its (error or success) response body,
and `authorize i` the outcome of the i-th (0-based)
`AuthorizeSecurityGroupIngress` attempt. -/
structure SgEnv where
  createCall : AwsApiOutcome
  decodeOk : Bool
  authorize : Nat → AwsApiOutcome

/-- Result of `createSecurityGroup` paired with how many ingress
authorization attempts were performed. -/
inductive SgResult where
  | success
  | failure (msg : String)
deriving DecidableEq

/-- Embeds the bounded `for attempts := 0; attempts < MAX_REQUEST_ATTEMPTS`
retry loop of `createSecurityGroup`: a failed attempt with a 400 status
`continue`s, any other failure returns the authorize error, a successful
attempt returns nil; falling off the end of the loop also returns nil.
The pair carries (result, number of attempts performed); `fuel` is the
number of loop iterations left, `i` the current attempt index. -/
def authorizeIngressLoop (authorize : Nat → AwsApiOutcome) :
    Nat → Nat → SgResult × Nat
  | 0, i => (.success, i)
  | fuel + 1, i =>
    match authorize i with
    | .okResp => (.success, i + 1)
    | .badRequest _ => authorizeIngressLoop authorize fuel (i + 1)
    | .otherFailure =>
      (.failure "Error making API call to authorize security group ingress",
       i + 1)

/-- Embeds `createSecurityGroup` of the canonical EC2 driver: create the
group; on a 400 error decode the error envelope and absorb the
duplicate-group code as success; on any other failure (or decode
failure) return an error; on creation decode the response and run the
bounded ingress retry loop. -/
def createSecurityGroup (env : SgEnv) : SgResult × Nat :=
  match env.createCall with
  | .badRequest code =>
    if env.decodeOk then
      if code = ErrorDuplicateGroup then (.success, 0)
      else (.failure "Error making API call to create security group", 0)
    else (.failure "Error decoding error response", 0)
  | .otherFailure =>
    (.failure "Error making API call to create security group", 0)
  | .okResp =>
    if env.decodeOk then
      authorizeIngressLoop env.authorize MAX_REQUEST_ATTEMPTS 0
    else (.failure "Error decoding create security groups response", 0)

theorem authorizeIngressLoop_le (authorize : Nat → AwsApiOutcome) :
    ∀ fuel i, (authorizeIngressLoop authorize fuel i).2 ≤ i + fuel := by
  intro fuel
  induction fuel with
  | zero => intro i; simp [authorizeIngressLoop]
  | succ fuel ih =>
    intro i
    simp only [authorizeIngressLoop]
    cases authorize i with
    | okResp => simp
    | badRequest code =>
      simp only []
      calc (authorizeIngressLoop authorize fuel (i + 1)).2 ≤ i + 1 + fuel :=
            ih (i + 1)
        _ ≤ i + (fuel + 1) := by omega
    | otherFailure => simp

theorem authorizeIngressLoop_exhausted (authorize : Nat → AwsApiOutcome)
    (hfail : ∀ i, i < MAX_REQUEST_ATTEMPTS → ∃ c, authorize i = .badRequest c) :
    ∀ fuel i, i + fuel = MAX_REQUEST_ATTEMPTS →
      authorizeIngressLoop authorize fuel i = (.success, MAX_REQUEST_ATTEMPTS) := by
  intro fuel
  induction fuel with
  | zero =>
    intro i hi
    simp only [authorizeIngressLoop]
    rw [show i = MAX_REQUEST_ATTEMPTS by omega]
  | succ fuel ih =>
    intro i hi
    obtain ⟨c, hc⟩ := hfail i (by omega)
    simp only [authorizeIngressLoop, hc]
    exact ih (i + 1) (by omega)

/-- C3: the ingress-authorization retry loop of `createSecurityGroup`
performs at most `MAX_REQUEST_ATTEMPTS = 5` attempts, and when every
attempt fails with a retryable (400) error — the ceiling exhausted with
no attempt succeeding — `createSecurityGroup` falls out of the loop and
returns without an error: retry-ceiling exhaustion is reported as
success. -/
theorem createSecurityGroup_silent_exhaustion (env : SgEnv)
    (hcreate : env.createCall = .okResp) (hdecode : env.decodeOk = true) :
    (createSecurityGroup env).2 ≤ MAX_REQUEST_ATTEMPTS ∧
    ((∀ i, i < MAX_REQUEST_ATTEMPTS → ∃ c, env.authorize i = .badRequest c) →
      createSecurityGroup env = (.success, MAX_REQUEST_ATTEMPTS)) := by
  constructor
  · simp only [createSecurityGroup, hcreate, hdecode, if_pos]
    have := authorizeIngressLoop_le env.authorize MAX_REQUEST_ATTEMPTS 0
    omega
  · intro hfail
    simp only [createSecurityGroup, hcreate, hdecode, if_pos]
    exact authorizeIngressLoop_exhausted env.authorize hfail
      MAX_REQUEST_ATTEMPTS 0 (by omega)

/-- A scripted collaborator where group creation succeeds and every
ingress-authorization attempt fails with a 400 status. -/
def alwaysThrottledSgEnv : SgEnv :=
  { createCall := .okResp, decodeOk := true,
    authorize := fun _ => .badRequest "Throttling" }

/-- Witness instantiating `createSecurityGroup_silent_exhaustion` at the
scripted always-throttled collaborator. -/
theorem createSecurityGroup_silent_exhaustion_witness :
    (createSecurityGroup alwaysThrottledSgEnv).2 ≤ MAX_REQUEST_ATTEMPTS ∧
    createSecurityGroup alwaysThrottledSgEnv =
      (.success, MAX_REQUEST_ATTEMPTS) :=
  ⟨(createSecurityGroup_silent_exhaustion alwaysThrottledSgEnv rfl rfl).1,
   (createSecurityGroup_silent_exhaustion alwaysThrottledSgEnv rfl rfl).2
     (fun _ _ => ⟨"Throttling", rfl⟩)⟩

/- ------------------------------------------------------------------ -/
/- Store: src/hosts/store.go                                          -/
/- ------------------------------------------------------------------ -/

/-- Modelled from the spec: the `Host` entity of hosts/host.go (not under
src/) — §3: a Host binds a unique name, one Driver instance, and the
local storage directory `root/<name>` (the root being fixed per Store,
the path is embedded by the host's name). -/
structure Host where
  Name : String
  DriverName : String
  storePath : String
deriving DecidableEq

/-- The store-root filesystem state visible to hosts/store.go:
`entries` are the names present under the root directory and `active`
is the content of the `.active` pointer file (`none` when absent). -/
structure StoreFS where
  entries : List String
  active : Option String
deriving DecidableEq

/-- Embeds `Store.Exists` of src/hosts/store.go: `"default"` is always
reported as existing; otherwise existence is an `os.Stat` of
`root/<name>`. -/
def storeExists (fs : StoreFS) (name : String) : Bool :=
  name = "default" || fs.entries.contains name

/-- Scripted outcomes of the external steps of `Store.Create`:
`newHostOk` for `NewHost` (registry lookup), `hasFlags` for
`createFlags != nil`, `flagsOk` for `SetConfigFromFlags`, `mkdirOk` for
`os.MkdirAll`, `driverCreateOk` for `host.Create()` (the remote
provisioning call), `saveOk` for `host.SaveConfig()`. -/
structure CreateEnv where
  newHostOk : Bool
  hasFlags : Bool
  flagsOk : Bool
  mkdirOk : Bool
  driverCreateOk : Bool
  saveOk : Bool
deriving DecidableEq

/-- Errors raised by the embedded `Store.Create`. -/
inductive StoreErr where
  | duplicateHost (name : String)
  | newHostFailed
  | flagsFailed
  | mkdirFailed
  | driverCreateFailed
  | saveFailed
deriving DecidableEq

/-- What a `Store.Create` call returned and did: the returned Host
pointer (`none` embeds a nil `*Host`), the returned error, the resulting
store-root filesystem, the number of remote calls issued
(`host.Create()` is the only one on this path), and the number of
successful filesystem mutations (the host directory and the persisted
config file). -/
structure CreateResult where
  host : Option Host
  err : Option StoreErr
  fs : StoreFS
  remoteCalls : Nat
  fsWrites : Nat
deriving DecidableEq

/-- Embeds `Store.Create` of src/hosts/store.go: check `Exists` (a
duplicate returns `nil, error` before any mutation or remote call);
construct the host via `NewHost` (on failure Go returns the nil host
with the error); apply flags when given (on failure return the host with
the error); `os.MkdirAll` the host directory (on failure return
`nil, err`); invoke `host.Create()` (on failure return the host with the
error); persist via `host.SaveConfig()` (on failure return the host with
the error); otherwise return the host with nil error. -/
def storeCreate (fs : StoreFS) (name driverName : String) (env : CreateEnv) :
    CreateResult :=
  if storeExists fs name then
    { host := none, err := some (.duplicateHost name), fs := fs,
      remoteCalls := 0, fsWrites := 0 }
  else if !env.newHostOk then
    { host := none, err := some .newHostFailed, fs := fs,
      remoteCalls := 0, fsWrites := 0 }
  else
    let host : Host := { Name := name, DriverName := driverName,
                         storePath := name }
    if env.hasFlags && !env.flagsOk then
      { host := some host, err := some .flagsFailed, fs := fs,
        remoteCalls := 0, fsWrites := 0 }
    else if !env.mkdirOk then
      { host := none, err := some .mkdirFailed, fs := fs,
        remoteCalls := 0, fsWrites := 0 }
    else
      let fs' := { fs with entries := name :: fs.entries }
      if !env.driverCreateOk then
        { host := some host, err := some .driverCreateFailed, fs := fs',
          remoteCalls := 1, fsWrites := 1 }
      else if !env.saveOk then
        { host := some host, err := some .saveFailed, fs := fs',
          remoteCalls := 1, fsWrites := 1 }
      else
        { host := some host, err := none, fs := fs',
          remoteCalls := 1, fsWrites := 2 }

theorem storeCreate_of_exists (fs : StoreFS) (name driverName : String)
    (env : CreateEnv) (hex : storeExists fs name = true) :
    storeCreate fs name driverName env =
      { host := none, err := some (.duplicateHost name), fs := fs,
        remoteCalls := 0, fsWrites := 0 } := by
  simp [storeCreate, hex]

/-- C4: for a name that already exists — `"default"` always does — a
second `Store.Create` with the same name fails with the duplicate-name
error, performs no filesystem mutation and no remote call, and leaves
the store-root filesystem exactly as it was; in particular this holds
for the second of two same-name `Create` calls whose first succeeded. -/
theorem storeCreate_duplicate (fs : StoreFS) (name driverName : String)
    (env env₂ : CreateEnv) :
    storeExists fs "default" = true ∧
    (storeExists fs name = true →
      storeCreate fs name driverName env =
        { host := none, err := some (.duplicateHost name), fs := fs,
          remoteCalls := 0, fsWrites := 0 }) ∧
    ((storeCreate fs name driverName env).err = none →
      storeCreate (storeCreate fs name driverName env).fs name driverName env₂ =
        { host := none, err := some (.duplicateHost name),
          fs := (storeCreate fs name driverName env).fs,
          remoteCalls := 0, fsWrites := 0 }) := by
  refine ⟨by simp [storeExists],
    fun hex => storeCreate_of_exists fs name driverName env hex, ?_⟩
  intro hok
  have hfs : (storeCreate fs name driverName env).fs.entries =
      name :: fs.entries := by
    simp only [storeCreate] at hok ⊢
    split_ifs at hok ⊢
    all_goals simp_all
  have hex : storeExists (storeCreate fs name driverName env).fs name = true := by
    simp [storeExists, hfs]
  exact storeCreate_of_exists _ name driverName env₂ hex

/-- The empty store root. -/
def emptyStoreFS : StoreFS := { entries := [], active := none }

/-- A scripted environment where every external step succeeds. -/
def allOkCreateEnv : CreateEnv :=
  { newHostOk := true, hasFlags := true, flagsOk := true, mkdirOk := true,
    driverCreateOk := true, saveOk := true }

/-- Witness instantiating `storeCreate_duplicate`: after a successful
first `Create` of `"web"`, the second same-name call fails as a
duplicate with zero writes and zero remote calls. -/
theorem storeCreate_duplicate_witness :
    storeCreate (storeCreate emptyStoreFS "web" "ec2" allOkCreateEnv).fs
        "web" "ec2" allOkCreateEnv =
      { host := none, err := some (.duplicateHost "web"),
        fs := (storeCreate emptyStoreFS "web" "ec2" allOkCreateEnv).fs,
        remoteCalls := 0, fsWrites := 0 } :=
  (storeCreate_duplicate emptyStoreFS "web" "ec2" allOkCreateEnv
    allOkCreateEnv).2.2 (by decide)

/-- A scripted environment where only `os.MkdirAll` fails. -/
def mkdirFailEnv : CreateEnv :=
  { newHostOk := true, hasFlags := false, flagsOk := true, mkdirOk := false,
    driverCreateOk := true, saveOk := true }

/-- C5 counterexample: when directory creation fails — one of the steps
the claim lists — `Store.Create` returns a nil Host with the error
(store.go returns `nil, err` from the `os.MkdirAll` branch), not the
partially-built Host. -/
theorem storeCreate_nil_host_counterexample :
    (storeCreate emptyStoreFS "box1" "ec2" mkdirFailEnv).err =
      some .mkdirFailed ∧
    (storeCreate emptyStoreFS "box1" "ec2" mkdirFailEnv).host = none := by
  constructor
  · decide
  · decide

/-- C5 (amended): when flag application, `Driver.Create` or the driver
state persist fails after the host object is constructed, `Store.Create`
returns the partially-built Host alongside the error and performs no
cleanup (the created host directory stays); the exception is directory
creation: an `os.MkdirAll` failure returns a nil Host with the error. -/
theorem storeCreate_partial_host (fs : StoreFS) (name driverName : String)
    (env : CreateEnv) (hex : storeExists fs name = false)
    (hnew : env.newHostOk = true) :
    (env.hasFlags = true → env.flagsOk = false →
      storeCreate fs name driverName env =
        { host := some { Name := name, DriverName := driverName,
                         storePath := name },
          err := some .flagsFailed, fs := fs,
          remoteCalls := 0, fsWrites := 0 }) ∧
    ((env.hasFlags && !env.flagsOk) = false → env.mkdirOk = false →
      storeCreate fs name driverName env =
        { host := none, err := some .mkdirFailed, fs := fs,
          remoteCalls := 0, fsWrites := 0 }) ∧
    ((env.hasFlags && !env.flagsOk) = false → env.mkdirOk = true →
      env.driverCreateOk = false →
      storeCreate fs name driverName env =
        { host := some { Name := name, DriverName := driverName,
                         storePath := name },
          err := some .driverCreateFailed,
          fs := { fs with entries := name :: fs.entries },
          remoteCalls := 1, fsWrites := 1 }) ∧
    ((env.hasFlags && !env.flagsOk) = false → env.mkdirOk = true →
      env.driverCreateOk = true → env.saveOk = false →
      storeCreate fs name driverName env =
        { host := some { Name := name, DriverName := driverName,
                         storePath := name },
          err := some .saveFailed,
          fs := { fs with entries := name :: fs.entries },
          remoteCalls := 1, fsWrites := 1 }) := by
  refine ⟨fun hf hfo => ?_, fun hf hm => ?_, fun hf hm hd => ?_,
    fun hf hm hd hs => ?_⟩ <;>
    simp [storeCreate, hex, hnew, hf, *]

/-- A scripted environment where only the driver-state persist fails. -/
def saveFailEnv : CreateEnv :=
  { newHostOk := true, hasFlags := false, flagsOk := true, mkdirOk := true,
    driverCreateOk := true, saveOk := false }

/-- Witness instantiating `storeCreate_partial_host` with a failing
persist step: the partially-built Host comes back with the error. -/
theorem storeCreate_partial_host_witness :
    storeCreate emptyStoreFS "box2" "ec2" saveFailEnv =
      { host := some { Name := "box2", DriverName := "ec2",
                       storePath := "box2" },
        err := some .saveFailed,
        fs := { emptyStoreFS with entries := ["box2"] },
        remoteCalls := 1, fsWrites := 1 } :=
  (storeCreate_partial_host emptyStoreFS "box2" "ec2" saveFailEnv
    (by decide) rfl).2.2.2 rfl rfl rfl rfl

/-- One entry of the `ioutil.ReadDir` listing of the store root. -/
structure DirEntry where
  name : String
  isDir : Bool
deriving DecidableEq

/-- The per-entry body of `Store.List`'s loop: files are ignored
(`file.IsDir()`), a directory literally named `default` is skipped, a
directory whose host fails to load is logged and skipped, and any other
directory contributes its host.  `loadOk` scripts the outcome of
`Store.Load` for each name. -/
def listEntry (loadOk : String → Bool) (e : DirEntry) : Option String :=
  if e.isDir then
    if e.name = "default" then none
    else if loadOk e.name then some e.name else none
  else none

/-- Embeds `Store.List` of src/hosts/store.go, reporting the listed host
names: `ioutil.ReadDir` on an absent root fails with `IsNotExist`, which
is ignored and leaves an empty listing; the `"default"` host is loaded
first and always heads the result (Modelled from the spec for the part
outside src/: hosts/host.go's `LoadHost` always succeeds for
`"default"`, per §4.3 "name default is always reported as existing,
bypassing filesystem checks"); every directory entry is then folded
through `listEntry`. -/
def storeList (rootPresent : Bool) (dir : List DirEntry)
    (loadOk : String → Bool) : List String :=
  let entries := if rootPresent then dir else []
  "default" :: entries.filterMap (listEntry loadOk)

theorem listEntry_some (loadOk : String → Bool) (e : DirEntry) (x : String)
    (h : listEntry loadOk e = some x) :
    x = e.name ∧ e.isDir = true ∧ e.name ≠ "default" ∧ loadOk e.name = true := by
  unfold listEntry at h
  split_ifs at h with h1 h2 h3
  exact ⟨(Option.some.injEq _ _).mp h.symm, h1, h2, h3⟩

/-- C6: for every store-root state (root absent, empty, or holding any
set of entries, a directory literally named `default` included) the
listing contains the `"default"` entry exactly once; every loadable
non-default host directory is listed, and a host whose load fails is
merely skipped — the listing is still produced and still contains the
rest. -/
theorem storeList_default_once (rootPresent : Bool) (dir : List DirEntry)
    (loadOk : String → Bool) :
    (storeList rootPresent dir loadOk).count "default" = 1 ∧
    (∀ e ∈ dir, rootPresent = true → e.isDir = true → e.name ≠ "default" →
      loadOk e.name = true → e.name ∈ storeList rootPresent dir loadOk) ∧
    (∀ n, loadOk n = false → n ≠ "default" →
      n ∉ storeList rootPresent dir loadOk) ∧
    storeList false dir loadOk = ["default"] := by
  refine ⟨?_, ?_, ?_, by simp [storeList]⟩
  · simp only [storeList, List.count_cons, beq_self_eq_true, if_true]
    have : "default" ∉ (if rootPresent then dir else []).filterMap
        (listEntry loadOk) := by
      intro hmem
      obtain ⟨e, -, he⟩ := List.mem_filterMap.mp hmem
      obtain ⟨hx, -, hne, -⟩ := listEntry_some loadOk e _ he
      exact hne hx.symm
    rw [List.count_eq_zero.mpr this]
  · intro e he hroot hdir hname hload
    simp only [storeList, hroot, if_true, List.mem_cons]
    right
    exact List.mem_filterMap.mpr
      ⟨e, he, by simp [listEntry, hdir, hname, hload]⟩
  · intro n hload hname hmem
    simp only [storeList, List.mem_cons] at hmem
    rcases hmem with h | h
    · exact hname h
    · obtain ⟨e, -, he⟩ := List.mem_filterMap.mp h
      obtain ⟨hx, -, -, hok⟩ := listEntry_some loadOk e _ he
      rw [← hx] at hok
      rw [hok] at hload
      exact Bool.noConfusion hload

/-- A concrete store-root listing: a directory literally named
`default`, a loadable host, a host whose load fails, and a plain file. -/
def sampleDir : List DirEntry :=
  [{ name := "default", isDir := true }, { name := "good", isDir := true },
   { name := "bad", isDir := true }, { name := "notes.txt", isDir := false }]

/-- Witness instantiating `storeList_default_once` at the concrete
listing where loading `"bad"` fails. -/
theorem storeList_default_once_witness :
    (storeList true sampleDir (fun n => !(n == "bad"))).count "default" = 1 ∧
    "good" ∈ storeList true sampleDir (fun n => !(n == "bad")) ∧
    "bad" ∉ storeList true sampleDir (fun n => !(n == "bad")) :=
  ⟨(storeList_default_once true sampleDir (fun n => !(n == "bad"))).1,
   (storeList_default_once true sampleDir (fun n => !(n == "bad"))).2.1
     { name := "good", isDir := true } (by decide) rfl rfl (by decide) rfl,
   (storeList_default_once true sampleDir (fun n => !(n == "bad"))).2.2.1
     "bad" rfl (by decide)⟩

/-- Modelled from the spec: `LoadHost` of hosts/host.go (not under
src/) — §4.3/§6: `Load` reads the persisted descriptor of `root/<name>`
and yields the host bound to that name; `"default"` always loads even
with no on-disk directory.  The loaded driver is opaque to the store
claims settled here, so the descriptor's driver field is left empty. -/
def loadHost (fs : StoreFS) (name : String) : Option Host :=
  if storeExists fs name then
    some { Name := name, DriverName := "", storePath := name }
  else none

/-- Embeds `Store.SetActive` of src/hosts/store.go: ensure the parent
directory exists, then write the host's name as the content of the
`.active` file. -/
def setActive (fs : StoreFS) (h : Host) : StoreFS :=
  { fs with active := some h.Name }

/-- Embeds `Store.GetActive` of src/hosts/store.go: read the `.active`
file; when absent, load `"default"`; otherwise load the host whose name
is the file's content. -/
def getActive (fs : StoreFS) : Option Host :=
  match fs.active with
  | none => loadHost fs "default"
  | some n => loadHost fs n

/-- C8: `SetActive(h)` followed by `GetActive()` over the same store
root — the store state is only the root's filesystem, so a fresh Store
in a new process reads the identical state — returns a host whose name
equals `h`'s name, for every host that is loadable from the root
(`"default"` included). -/
theorem setActive_getActive (fs : StoreFS) (h : Host)
    (hload : storeExists fs h.Name = true) :
    ∃ h', getActive (setActive fs h) = some h' ∧ h'.Name = h.Name := by
  refine ⟨{ Name := h.Name, DriverName := "", storePath := h.Name }, ?_, rfl⟩
  have hex : storeExists { entries := fs.entries, active := some h.Name }
      h.Name = true := hload
  simp [getActive, setActive, loadHost, hex]

/-- Witness instantiating `setActive_getActive` at a concrete store
holding one host named `box`. -/
theorem setActive_getActive_witness :
    (getActive (setActive { entries := ["box"], active := none }
      { Name := "box", DriverName := "ec2", storePath := "box" })).map
      Host.Name = some "box" := by
  obtain ⟨h', he, hn⟩ := setActive_getActive
    { entries := ["box"], active := none }
    { Name := "box", DriverName := "ec2", storePath := "box" } (by decide)
  rw [he]
  simp [hn]

/- ------------------------------------------------------------------ -/
/- Config value resolver: config package (HostConfig)                 -/
/- ------------------------------------------------------------------ -/

/-- A value held in the persisted per-host settings map or as a
hierarchy default (the Go code carries these as `interface` values that
are strings or booleans). -/
inductive ConfigVal where
  | str (s : String)
  | boolVal (b : Bool)
deriving DecidableEq

/-- Embeds `ConfigHierarchy` of the config package: the environment
variable name, the persisted-settings key, and the hardcoded default. -/
structure ConfigHierarchy where
  EnvVar : String
  JsonKey : String
  Default : ConfigVal

/-- Embeds `HostConfig.getConfigValue`: `os.Getenv` of the hierarchy's
variable (the Go API yields `""` both for an unset and for an
empty-valued variable, so `env` maps a variable name to that string);
a non-empty value wins outright; otherwise, when the settings map is
non-nil and holds a non-nil entry under the hierarchy's key, that entry
wins; otherwise the hierarchy's default. -/
def getConfigValue (env : String → String)
    (settings : Option (String → Option ConfigVal))
    (hierarchy : ConfigHierarchy) : ConfigVal :=
  let envVal := env hierarchy.EnvVar
  if envVal = "" then
    match settings with
    | some m =>
      match m hierarchy.JsonKey with
      | some v => v
      | none => hierarchy.Default
    | none => hierarchy.Default
  else .str envVal

/-- Modelled from the spec: `api.DEFAULTUNIXSOCKET` is referenced by
`GetHost` but its defining file is not under src/; §8 calls it "the
hardcoded default unix-socket path". -/
def DEFAULTUNIXSOCKET : String := "/var/run/docker.sock"

/-- Embeds `HostConfig.GetHost`: resolve through the hierarchy
(`DOCKER_HOST`, key `"Host"`, default `unix://` + the default socket). -/
def GetHost (env : String → String)
    (settings : Option (String → Option ConfigVal)) : ConfigVal :=
  getConfigValue env settings
    { EnvVar := "DOCKER_HOST", JsonKey := "Host",
      Default := .str ("unix://" ++ DEFAULTUNIXSOCKET) }

/-- The environment with no variable set. -/
def envUnset : String → String := fun _ => ""

/-- The environment where only `DOCKER_HOST` is set, to a unix socket. -/
def envDockerHostSock : String → String :=
  fun v => if v = "DOCKER_HOST" then "unix:///tmp/x.sock" else ""

/-- The persisted settings map holding one entry,
`Host = tcp://1.2.3.4:2375`. -/
def hostSettings1234 : String → Option ConfigVal :=
  fun k => if k = "Host" then some (.str "tcp://1.2.3.4:2375") else none

/-- C7: for every hierarchy and every environment/persisted
configuration, the resolver returns the environment variable's value
whenever it is non-empty; otherwise the persisted setting under the
hierarchy's key when the map and the entry are present; otherwise the
hardcoded default — and the three literal `GetHost` cases of §8 resolve
to the documented values. -/
theorem getConfigValue_hierarchy (env : String → String)
    (settings : Option (String → Option ConfigVal))
    (hierarchy : ConfigHierarchy) :
    (env hierarchy.EnvVar ≠ "" →
      getConfigValue env settings hierarchy = .str (env hierarchy.EnvVar)) ∧
    (∀ m v, env hierarchy.EnvVar = "" → settings = some m →
      m hierarchy.JsonKey = some v →
      getConfigValue env settings hierarchy = v) ∧
    (env hierarchy.EnvVar = "" → settings = none →
      getConfigValue env settings hierarchy = hierarchy.Default) ∧
    (∀ m, env hierarchy.EnvVar = "" → settings = some m →
      m hierarchy.JsonKey = none →
      getConfigValue env settings hierarchy = hierarchy.Default) ∧
    GetHost envUnset (some hostSettings1234) = .str "tcp://1.2.3.4:2375" ∧
    GetHost envDockerHostSock (some hostSettings1234) =
      .str "unix:///tmp/x.sock" ∧
    GetHost envUnset none = .str ("unix://" ++ DEFAULTUNIXSOCKET) := by
  refine ⟨fun hne => ?_, fun m v he hs hk => ?_, fun he hs => ?_,
    fun m he hs hk => ?_, by decide, by decide, by decide⟩
  · simp [getConfigValue, hne]
  · simp [getConfigValue, he, hs, hk]
  · simp [getConfigValue, he, hs]
  · simp [getConfigValue, he, hs, hk]

/-- Witness instantiating `getConfigValue_hierarchy`: the set
environment variable wins over the persisted entry, and with both
absent the default is returned. -/
theorem getConfigValue_hierarchy_witness :
    getConfigValue envDockerHostSock (some hostSettings1234)
      { EnvVar := "DOCKER_HOST", JsonKey := "Host", Default := .str "dflt" } =
      .str "unix:///tmp/x.sock" ∧
    getConfigValue envUnset none
      { EnvVar := "DOCKER_HOST", JsonKey := "Host", Default := .str "dflt" } =
      .str "dflt" :=
  ⟨(getConfigValue_hierarchy envDockerHostSock (some hostSettings1234)
      { EnvVar := "DOCKER_HOST", JsonKey := "Host",
        Default := .str "dflt" }).1 (by decide),
   (getConfigValue_hierarchy envUnset none
      { EnvVar := "DOCKER_HOST", JsonKey := "Host",
        Default := .str "dflt" }).2.2.1 rfl rfl⟩
